import Mathlib

/-
Verification of the bowing-metrics engine (bow-metrics.js / app.js).

Real-number fields of the JavaScript code are modelled with ℝ; the
session aggregator and advice selector, which only do integer and
rational arithmetic, are modelled computably over ℤ/ℚ.  `Math.round`
is Mathlib's `round` (round half towards +∞, matching JS on the values
that occur here), `null` is `Option.none`.
-/

namespace BowMetrics

/-- A 2D point `{x, y}` in normalized image coordinates. -/
structure Pt where
  x : ℝ
  y : ℝ

/-- One wrist-trail sample `{x, y, t}`. -/
structure TrailSample where
  x : ℝ
  y : ℝ
  t : ℝ

instance : Inhabited TrailSample := ⟨⟨0, 0, 0⟩⟩

def TrailSample.toPt (p : TrailSample) : Pt := ⟨p.x, p.y⟩

/-- The three status values the engine ever produces. -/
inductive Status where
  | good
  | warn
  | bad
deriving DecidableEq, Repr

/-- JS `distance(a, b)`: Euclidean distance (bow-metrics.js line 8). -/
noncomputable def distance (a b : Pt) : ℝ :=
  Real.sqrt ((a.x - b.x) ^ 2 + (a.y - b.y) ^ 2)

/-- JS `angleBetween3(a, b, c)`: angle at vertex `b` in degrees
(bow-metrics.js line 14).  The cosine argument is clamped to [-1,1];
a zero-length ray short-circuits to 0. -/
noncomputable def angleBetween3 (a b c : Pt) : ℝ :=
  let bax := a.x - b.x
  let bay := a.y - b.y
  let bcx := c.x - b.x
  let bcy := c.y - b.y
  let dot := bax * bcx + bay * bcy
  let magBA := Real.sqrt (bax * bax + bay * bay)
  let magBC := Real.sqrt (bcx * bcx + bcy * bcy)
  if magBA = 0 ∨ magBC = 0 then 0
  else Real.arccos (max (-1) (min 1 (dot / (magBA * magBC)))) * 180 / Real.pi

/-- JS `ema(prev, curr, alpha)` (bow-metrics.js line 25); `prev = none`
is the cold start. -/
def ema (prev : Option ℝ) (curr alpha : ℝ) : ℝ :=
  match prev with
  | none => curr
  | some p => p + alpha * (curr - p)

/-- Result record of `computeShoulderTension`. -/
structure ShoulderResult where
  tension : ℤ
  status : Status
  label : String
  currentDist : ℝ

/-- JS `computeShoulderTension(rShoulder, rEar, lShoulder, lEar, baseDist)`
(bow-metrics.js line 203).  `baseDist = none` models `null`. -/
noncomputable def computeShoulderTension (rShoulder rEar lShoulder lEar : Pt)
    (baseDist : Option ℝ) : ShoulderResult :=
  let rDist := distance rShoulder rEar
  let lDist := distance lShoulder lEar
  let avgDist := (rDist + lDist) / 2
  -- the (tension, status, label) triple after the baseline block
  let base : ℤ × Status × String :=
    match baseDist with
    | some b =>
      if 0 < b then
        let change := (b - avgDist) / b
        let tension := max 0 (round (change * 100))
        if 0.25 < change then (tension, Status.bad, "力んでいます")
        else if 0.15 < change then (tension, Status.warn, "少し力み")
        else (tension, Status.good, "リラックス")
      else (0, Status.good, "リラックス")
    | none => (0, Status.good, "リラックス")
  -- left/right asymmetry check
  let asymmetry := |rDist - lDist| / max rDist lDist
  let fin : ℤ × Status × String :=
    if 0.2 < asymmetry ∧ base.2.1 = Status.good then
      (base.1, Status.warn, "左右差あり")
    else base
  ⟨fin.1, fin.2.1, fin.2.2, avgDist⟩

/-- The shoulder field of `state.currentMetrics` as assembled by
`processFrame` (app.js lines 369-371): when the calibration baseline is
`null` the computed record is replaced by the calibration-pending one. -/
noncomputable def processShoulder (rShoulder rEar lShoulder lEar : Pt)
    (base : Option ℝ) : ShoulderResult :=
  let st := computeShoulderTension rShoulder rEar lShoulder lEar base
  match base with
  | none => ⟨0, Status.good, "キャリブレーション待ち", st.currentDist⟩
  | some _ => st

/-- Result record of `computeElbowHeight`. -/
structure ElbowResult where
  relativeHeight : ℝ
  status : Status
  label : String

/-- JS `computeElbowHeight(shoulder, elbow, rHip, lHip)`
(bow-metrics.js line 166).  `rHip`/`lHip` may be `null` (`none`). -/
noncomputable def computeElbowHeight (shoulder elbow : Pt)
    (rHip lHip : Option Pt) : ElbowResult :=
  let shoulderElbowDy := elbow.y - shoulder.y
  let bodyScale0 : ℝ :=
    match rHip with
    | some h => |h.y - shoulder.y|
    | none => 0.3
  let bodyScale := if bodyScale0 < 0.01 then 0.3 else bodyScale0
  let relativeHeight := shoulderElbowDy / bodyScale
  let sl : Status × String :=
    if relativeHeight < -0.15 then (Status.warn, "高すぎ")
    else if 0.5 < relativeHeight then (Status.bad, "低すぎ")
    else if 0.35 < relativeHeight then (Status.warn, "やや低い")
    else (Status.good, "OK")
  ⟨(round (relativeHeight * 100) : ℤ) / 100, sl.1, sl.2⟩

/-- Bow zones. -/
inductive Zone where
  | frog
  | middle
  | tip
deriving DecidableEq, Repr

/-- Result record of `computeBowZone`. -/
structure ZoneResult where
  zone : Zone
  extensionRatio : ℝ

/-- JS `computeBowZone(shoulder, elbow, wrist)` (bow-metrics.js line 122). -/
noncomputable def computeBowZone (shoulder elbow wrist : Pt) : ZoneResult :=
  let upperArm := distance shoulder elbow
  let forearm := distance elbow wrist
  let armLength := upperArm + forearm
  if armLength < 0.01 then ⟨Zone.middle, 0.5⟩
  else
    let wristShoulderDist := distance shoulder wrist
    let extensionRatio := wristShoulderDist / armLength
    let zone :=
      if extensionRatio < 0.55 then Zone.frog
      else if extensionRatio < 0.78 then Zone.middle
      else Zone.tip
    ⟨zone, (round (extensionRatio * 100) : ℤ) / 100⟩

/-- The `{tip, middle, frog}` frame counters. -/
structure DistCounts where
  tip : ℕ
  middle : ℕ
  frog : ℕ

/-- Result record of `computeDistributionPercent`. -/
structure DistPercent where
  tip : ℤ
  middle : ℤ
  frog : ℤ
  label : String
deriving DecidableEq

/-- JS `computeDistributionPercent(dist)` (bow-metrics.js line 142). -/
def computeDistributionPercent (dist : DistCounts) : DistPercent :=
  let total := dist.tip + dist.middle + dist.frog
  if total = 0 then ⟨33, 34, 33, "--"⟩
  else
    let tipPct := round ((dist.tip : ℚ) / total * 100)
    let frogPct := round ((dist.frog : ℚ) / total * 100)
    let midPct := 100 - tipPct - frogPct
    let mx := max tipPct (max midPct frogPct)
    let label :=
      if 50 ≤ mx then
        if tipPct = mx then "先弓寄り"
        else if frogPct = mx then "元弓寄り"
        else "中弓中心"
      else if mx - min tipPct (min midPct frogPct) < 15 then "全弓"
      else "均等"
    ⟨tipPct, midPct, frogPct, label⟩

end BowMetrics

namespace BowMetrics

/-- Helper for evaluating `Real.sqrt` at perfect squares. -/
theorem sqrt_eval {a b : ℝ} (hb : 0 ≤ b) (hab : a = b ^ 2) : Real.sqrt a = b := by
  rw [hab]
  exact Real.sqrt_sq hb

/-- JS `Math.sign` restricted to the values the segmentation loop feeds it. -/
noncomputable def msign (x : ℝ) : ℝ :=
  if x < 0 then -1 else if 0 < x then 1 else 0

/-- One pass of the stroke-segmentation loop of `computeBowStraightness`
(bow-metrics.js lines 41-58): `prev` is the previous trail sample,
`rest` the samples not yet visited, `currentStroke` the open stroke,
`prevDx` the last non-noise horizontal delta, `strokes` the closed
strokes kept so far.  The `[]` case is the post-loop flush
(lines 59-61). -/
noncomputable def segStep (prev : TrailSample) (rest : List TrailSample)
    (currentStroke : List TrailSample) (prevDx : ℝ)
    (strokes : List (List TrailSample)) : List (List TrailSample) :=
  match rest with
  | [] => if 8 ≤ currentStroke.length then strokes ++ [currentStroke] else strokes
  | p :: rest2 =>
    let dx := p.x - prev.x
    if |dx| < 0.002 then
      segStep p rest2 (currentStroke ++ [p]) prevDx strokes
    else if prevDx ≠ 0 ∧ msign dx ≠ msign prevDx then
      segStep p rest2 [p] dx
        (if 8 ≤ currentStroke.length then strokes ++ [currentStroke] else strokes)
    else
      segStep p rest2 (currentStroke ++ [p]) dx strokes

/-- The stroke list derived from a wrist trail (bow-metrics.js
lines 37-61): direction-consistent runs of at least 8 samples. -/
noncomputable def segmentStrokes (trail : List TrailSample) : List (List TrailSample) :=
  match trail with
  | [] => []
  | p0 :: rest => segStep p0 rest [p0] 0 []

/-- The least-squares RMSE of a stroke (bow-metrics.js lines 69-100),
with the near-vertical fallback measuring spread of x around its mean. -/
noncomputable def strokeRMSE (stroke : List TrailSample) : ℝ :=
  let n : ℝ := stroke.length
  let sumX := (stroke.map fun p => p.x).sum
  let sumY := (stroke.map fun p => p.y).sum
  let sumXX := (stroke.map fun p => p.x * p.x).sum
  let sumXY := (stroke.map fun p => p.x * p.y).sum
  let denom := n * sumXX - sumX * sumX
  if |denom| < 1e-10 then
    let meanX := sumX / n
    Real.sqrt ((stroke.map fun p => (p.x - meanX) ^ 2).sum / n)
  else
    let slope := (n * sumXY - sumX * sumY) / denom
    let intercept := (sumY - slope * sumX) / n
    Real.sqrt ((stroke.map fun p => (p.y - (slope * p.x + intercept)) ^ 2).sum / n)

/-- Result record of `computeBowStraightness`; the early returns carry
no curvature field, modelled as `none`. -/
structure StraightnessResult where
  score : Option ℤ
  curvature : Option ℝ
  status : Status

/-- Evaluation of the most recent stroke (bow-metrics.js lines 66-117):
RMSE, first-to-last stroke length with the 0.03 guard, curvature
percentage, clamped rounded score and thresholded status. -/
noncomputable def evalStroke (stroke : List TrailSample) : StraightnessResult :=
  let rmse := strokeRMSE stroke
  let first := stroke.headI
  let last := stroke.getLastD default
  let strokeLen := distance first.toPt last.toPt
  if strokeLen < 0.03 then ⟨none, none, Status.good⟩
  else
    let curvature := rmse / strokeLen * 100
    let score := max 0 (min 100 (100 - curvature * 5))
    let status :=
      if 5 < curvature then Status.bad
      else if 2 < curvature then Status.warn
      else Status.good
    ⟨some (round score), some curvature, status⟩

/-- JS `computeBowStraightness(wristTrail)` (bow-metrics.js line 32). -/
noncomputable def computeBowStraightness (wristTrail : List TrailSample) :
    StraightnessResult :=
  if wristTrail.length < 10 then ⟨none, none, Status.good⟩
  else
    let strokes := segmentStrokes wristTrail
    if strokes.length = 0 then ⟨none, none, Status.good⟩
    else evalStroke (strokes.getLastD [])

end BowMetrics

namespace BowMetrics

/-
Advice selector (`generateAdvice`, bow-metrics.js lines 241-276).
It reads only `straightness.status`, `elbow.status`, `elbow.label`,
`shoulder.status`, `shoulder.label` and `distribution.label` of the
metrics record, so the input model carries exactly those fields; a
`none` field models a missing (falsy) member.
-/

structure MStraightness where
  status : Status
deriving DecidableEq

structure MElbow where
  status : Status
  label : String
deriving DecidableEq

structure MShoulder where
  status : Status
  label : String
deriving DecidableEq

structure MDistribution where
  label : String
deriving DecidableEq

/-- The fields of a metrics record inspected by `generateAdvice`. -/
structure MetricsRecord where
  straightness : Option MStraightness
  elbow : Option MElbow
  shoulder : Option MShoulder
  distribution : Option MDistribution
deriving DecidableEq

/-- JS `generateAdvice(metrics)` (bow-metrics.js lines 241-276): the
`issues` array built by the three blocks, then `issues[0]` or the
positive message. -/
def generateAdvice (metrics : MetricsRecord) : String :=
  let i1 : List String :=
    match metrics.straightness with
    | some s =>
      if s.status = Status.bad then
        ["弓が曲がっています。弓先まで弦と直角を保つよう意識してみてください"]
      else if s.status = Status.warn then
        ["弓がやや曲がっています。手首の柔軟性を意識してみましょう"]
      else []
    | none => []
  let i2 : List String :=
    match metrics.elbow with
    | some e =>
      if e.status = Status.bad then
        ["肘が下がりすぎです。弦の高さに合わせて肘を上げましょう"]
      else if e.label = "高すぎ" then
        ["肘が高すぎます。力まず自然な高さに下ろしましょう"]
      else if e.status = Status.warn then
        ["肘をもう少し上げてみましょう"]
      else []
    | none => []
  let i3 : List String :=
    match metrics.shoulder with
    | some s =>
      if s.status = Status.bad then
        ["肩に力が入っています！一度息を吐いて肩を落としましょう"]
      else if s.status = Status.warn then
        if s.label = "左右差あり" then
          ["肩の高さに左右差があります。鏡で確認してみましょう"]
        else
          ["肩が少し上がっています。リラックスを意識してください"]
      else []
    | none => []
  let issues := i1 ++ i2 ++ i3
  match issues with
  | [] =>
    match metrics.distribution with
    | some d =>
      if d.label = "全弓" then "いい感じ！全弓をバランスよく使えています"
      else "フォームは良好です。この調子で続けましょう"
    | none => "フォームは良好です。この調子で続けましょう"
  | first :: _ => first

end BowMetrics

namespace BowMetrics

/-
Session aggregator (`showDiagnoseReport`, app.js lines 564-637).
One diagnostic-log entry (app.js lines 340-351) carries, among the
fields the aggregation actually reads, a rounded straightness score
(or null), the smoothed rounded relative elbow height, the integer
shoulder-tension percentage and the classified bow zone.  All of the
aggregation is integer/rational arithmetic, modelled over ℚ and ℤ.
-/

/-- The fields of one diagnostic-log entry read by `showDiagnoseReport`. -/
structure LogEntry where
  straightness : Option ℤ
  elbowHeight : ℚ
  shoulderTension : ℤ
  bowZone : Zone
deriving DecidableEq

/-- The aggregate report assembled by `showDiagnoseReport` for a
non-empty log. -/
structure Report where
  avgStraightness : Option ℤ
  avgElbow : ℚ
  avgTension : ℤ
  maxTension : ℤ
  tipPct : ℤ
  midPct : ℤ
  frogPct : ℤ
  straightStatus : Status
  elbowStatus : Status
  shoulderStatus : Status
  distStatus : Status
  overall : ℤ
  overallStatus : Status
deriving DecidableEq

/-- JS `avgStraightness` (app.js lines 572-575): rounded mean of the
non-null straightness scores, or `none` when there is no such frame. -/
def avgStraightnessOf (log : List LogEntry) : Option ℤ :=
  let valid := log.filterMap fun l => l.straightness
  if valid.length = 0 then none
  else some (round ((valid.map fun s => (s : ℚ)).sum / valid.length))

/-- JS `avgElbow` (app.js line 577): mean relative elbow height over all
frames, rounded to 2 decimals. -/
def avgElbowOf (log : List LogEntry) : ℚ :=
  (round ((log.map fun l => l.elbowHeight).sum / log.length * 100) : ℤ) / 100

/-- JS `avgTension` (app.js lines 579-582): rounded mean over frames with
positive tension only, 0 when there is none. -/
def avgTensionOf (log : List LogEntry) : ℤ :=
  let valid := (log.filter fun l => 0 < l.shoulderTension).map fun l => l.shoulderTension
  if valid.length = 0 then 0
  else round ((valid.map fun s => (s : ℚ)).sum / valid.length)

/-- JS `maxTension` (app.js line 583): `Math.max` over the positive
tensions, 0 when there is none. -/
def maxTensionOf (log : List LogEntry) : ℤ :=
  match (log.filter fun l => 0 < l.shoulderTension).map fun l => l.shoulderTension with
  | [] => 0
  | t :: ts => ts.foldl max t

/-- JS `tipPct` (app.js lines 586-589). -/
def tipPctOf (log : List LogEntry) : ℤ :=
  round (((log.countP fun l => l.bowZone = Zone.tip) : ℚ) / log.length * 100)

/-- JS `frogPct` (app.js line 590). -/
def frogPctOf (log : List LogEntry) : ℤ :=
  round (((log.countP fun l => l.bowZone = Zone.frog) : ℚ) / log.length * 100)

/-- JS `midPct` (app.js line 591): the remainder. -/
def midPctOf (log : List LogEntry) : ℤ :=
  100 - tipPctOf log - frogPctOf log

/-- JS `straightStatus` (app.js lines 594-596). -/
def straightStatusOf (log : List LogEntry) : Status :=
  match avgStraightnessOf log with
  | none => Status.good
  | some a => if 85 ≤ a then Status.good else if 65 ≤ a then Status.warn else Status.bad

/-- JS `elbowStatus` (app.js lines 598-600). -/
def elbowStatusOf (log : List LogEntry) : Status :=
  if avgElbowOf log < -0.15 then Status.warn
  else if 0.5 < avgElbowOf log then Status.bad
  else if 0.35 < avgElbowOf log then Status.warn
  else Status.good

/-- JS `shoulderStatus` (app.js lines 602-603). -/
def shoulderStatusOf (log : List LogEntry) : Status :=
  if 25 < maxTensionOf log then Status.bad
  else if 15 < avgTensionOf log then Status.warn
  else Status.good

/-- JS `distStatus` (app.js lines 606-609): spread between the largest and
the smallest zone percentage. -/
def distStatusOf (log : List LogEntry) : Status :=
  let mx := max (tipPctOf log) (max (midPctOf log) (frogPctOf log))
  let mn := min (tipPctOf log) (min (midPctOf log) (frogPctOf log))
  if mx - mn < 20 then Status.good
  else if mx - mn < 35 then Status.warn
  else Status.bad

/-- The weighted `scores` array and overall score
(app.js lines 612-618). -/
def overallOf (log : List LogEntry) : ℤ :=
  let scores : List (ℚ × ℚ) :=
    (match avgStraightnessOf log with
     | some a => [((a : ℚ), (3 : ℚ))]
     | none => []) ++
    [((if elbowStatusOf log = Status.good then (90 : ℚ)
       else if elbowStatusOf log = Status.warn then 60 else 30), (2 : ℚ)),
     ((if shoulderStatusOf log = Status.good then (95 : ℚ)
       else if shoulderStatusOf log = Status.warn then 60 else 30), (2 : ℚ)),
     ((if distStatusOf log = Status.good then (90 : ℚ)
       else if distStatusOf log = Status.warn then 65 else 35), (1 : ℚ))]
  let totalW := (scores.map fun s => s.2).sum
  round ((scores.map fun s => s.1 * s.2).sum / totalW)

/-- JS `overallStatus` (app.js line 619). -/
def overallStatusOf (log : List LogEntry) : Status :=
  if 80 ≤ overallOf log then Status.good
  else if 60 ≤ overallOf log then Status.warn
  else Status.bad

/-- The report computed for a non-empty log. -/
def computeReport (log : List LogEntry) : Report :=
  ⟨avgStraightnessOf log, avgElbowOf log, avgTensionOf log, maxTensionOf log,
   tipPctOf log, midPctOf log, frogPctOf log,
   straightStatusOf log, elbowStatusOf log, shoulderStatusOf log, distStatusOf log,
   overallOf log, overallStatusOf log⟩

/-- Outcome of `showDiagnoseReport`: either the explicit
no-pose-detected message (app.js lines 565-569) or the aggregate report. -/
inductive DiagnoseOutcome where
  | noPose
  | report (r : Report)
deriving DecidableEq

/-- JS `showDiagnoseReport(log)` (app.js line 564): the empty log is
answered by the explicit no-pose result before any statistic is
computed. -/
def showDiagnoseReport (log : List LogEntry) : DiagnoseOutcome :=
  if log.length = 0 then DiagnoseOutcome.noPose
  else DiagnoseOutcome.report (computeReport log)

end BowMetrics

namespace BowMetrics

/-- C10: the output of `computeElbowHeight` is independent of its
fourth (`lHip`) argument — two calls differing only in `lHip` return
identical results. -/
theorem c10_elbow_independent_of_lhip (shoulder elbow : Pt)
    (rHip lHip1 lHip2 : Option Pt) :
    computeElbowHeight shoulder elbow rHip lHip1 =
      computeElbowHeight shoulder elbow rHip lHip2 := rfl

/-- C9: `angleBetween3` is total and always returns a value in
[0, 180] degrees, for every three input points (including coincident
ones). -/
theorem c9_angle_between_bounds (a b c : Pt) :
    0 ≤ angleBetween3 a b c ∧ angleBetween3 a b c ≤ 180 := by
  unfold angleBetween3
  simp only []
  split_ifs with h
  · norm_num
  · have hpi := Real.pi_pos
    have h0 := Real.arccos_nonneg
      (max (-1) (min 1 (((a.x - b.x) * (c.x - b.x) + (a.y - b.y) * (c.y - b.y)) /
        (Real.sqrt ((a.x - b.x) * (a.x - b.x) + (a.y - b.y) * (a.y - b.y)) *
         Real.sqrt ((c.x - b.x) * (c.x - b.x) + (c.y - b.y) * (c.y - b.y))))))
    have h1 := Real.arccos_le_pi
      (max (-1) (min 1 (((a.x - b.x) * (c.x - b.x) + (a.y - b.y) * (c.y - b.y)) /
        (Real.sqrt ((a.x - b.x) * (a.x - b.x) + (a.y - b.y) * (a.y - b.y)) *
         Real.sqrt ((c.x - b.x) * (c.x - b.x) + (c.y - b.y) * (c.y - b.y))))))
    constructor
    · positivity
    · rw [div_le_iff₀ hpi]
      nlinarith

/-- C6: the session aggregator answers the empty diagnostic log with
the explicit no-pose-detected result without computing any statistics,
and on any non-empty log it totals to the computed report (it never
signals an error). -/
theorem c6_empty_log_no_pose :
    showDiagnoseReport [] = DiagnoseOutcome.noPose ∧
    ∀ log : List LogEntry, log.length ≠ 0 →
      showDiagnoseReport log = DiagnoseOutcome.report (computeReport log) := by
  refine ⟨rfl, fun log h => ?_⟩
  unfold showDiagnoseReport
  rw [if_neg h]

/-- C6 witness: a singleton log is answered by its computed report. -/
theorem c6_empty_log_no_pose_witness :
    showDiagnoseReport [⟨some 90, 0, 0, Zone.middle⟩] =
      DiagnoseOutcome.report (computeReport [⟨some 90, 0, 0, Zone.middle⟩]) :=
  c6_empty_log_no_pose.2 [⟨some 90, 0, 0, Zone.middle⟩] (by decide)

/-- C2: for any counter record with non-zero total the three reported
percentages sum to exactly 100 and the middle percentage is 100 minus
the rounded tip and frog percentages; for a zero total the result is
exactly {tip 33, middle 34, frog 33} labeled "--". -/
theorem c2_distribution_sums_to_100 (d : DistCounts) :
    (d.tip + d.middle + d.frog ≠ 0 →
       (computeDistributionPercent d).tip + (computeDistributionPercent d).middle +
         (computeDistributionPercent d).frog = 100 ∧
       (computeDistributionPercent d).middle =
         100 - round ((d.tip : ℚ) / (d.tip + d.middle + d.frog : ℕ) * 100)
             - round ((d.frog : ℚ) / (d.tip + d.middle + d.frog : ℕ) * 100)) ∧
    (d.tip + d.middle + d.frog = 0 →
       computeDistributionPercent d = ⟨33, 34, 33, "--"⟩) := by
  unfold computeDistributionPercent
  constructor
  · intro h
    rw [if_neg h]
    refine ⟨by ring, rfl⟩
  · intro h
    rw [if_pos h]

/-- C2 witness: counts {1,2,3} give percentages summing to 100 and
zero counts give the even split. -/
theorem c2_distribution_sums_to_100_witness :
    ((computeDistributionPercent ⟨1, 2, 3⟩).tip +
       (computeDistributionPercent ⟨1, 2, 3⟩).middle +
       (computeDistributionPercent ⟨1, 2, 3⟩).frog = 100) ∧
    computeDistributionPercent ⟨0, 0, 0⟩ = ⟨33, 34, 33, "--"⟩ :=
  ⟨((c2_distribution_sums_to_100 ⟨1, 2, 3⟩).1 (by decide)).1,
   (c2_distribution_sums_to_100 ⟨0, 0, 0⟩).2 (by decide)⟩

/-- C1 (amended): with a `null` calibration baseline the shoulder
record produced by `processFrame` reports tension 0, status good and
the calibration-pending label, regardless of the four landmark
positions. -/
theorem c1_null_baseline_is_pending (rShoulder rEar lShoulder lEar : Pt) :
    (processShoulder rShoulder rEar lShoulder lEar none).tension = 0 ∧
    (processShoulder rShoulder rEar lShoulder lEar none).status = Status.good ∧
    (processShoulder rShoulder rEar lShoulder lEar none).label =
      "キャリブレーション待ち" :=
  ⟨rfl, rfl, rfl⟩

/-- C1 counterexample: with a baseline that is present but not positive
(`some 0`) and asymmetric shoulder-ear distances, the reported status is
warn with the asymmetry label, not good with the calibration-pending
label. -/
theorem c1_nonpositive_baseline_counterexample :
    (processShoulder ⟨0, 0⟩ ⟨1, 0⟩ ⟨0, 0⟩ ⟨0, 0⟩ (some 0)).status = Status.warn ∧
    (processShoulder ⟨0, 0⟩ ⟨1, 0⟩ ⟨0, 0⟩ ⟨0, 0⟩ (some 0)).label = "左右差あり" := by
  have h1 : distance ⟨0, 0⟩ ⟨1, 0⟩ = 1 := by
    simp [distance]
  have h0 : distance (⟨0, 0⟩ : Pt) ⟨0, 0⟩ = 0 := by
    simp [distance]
  constructor <;>
    · simp only [processShoulder, computeShoulderTension, h1, h0]
      norm_num

/-- C8: `computeBowZone` classifies by the extension ratio
(shoulder-to-wrist distance over upper-arm plus forearm length):
ratio < 0.55 is frog, ratio < 0.78 is middle, otherwise tip; an arm
length below 0.01 returns the default zone middle with ratio 0.5. -/
theorem c8_zone_thresholds (shoulder elbow wrist : Pt) :
    (distance shoulder elbow + distance elbow wrist < 0.01 →
       computeBowZone shoulder elbow wrist = ⟨Zone.middle, 0.5⟩) ∧
    (0.01 ≤ distance shoulder elbow + distance elbow wrist →
       ((distance shoulder wrist / (distance shoulder elbow + distance elbow wrist) < 0.55 →
           (computeBowZone shoulder elbow wrist).zone = Zone.frog) ∧
        (0.55 ≤ distance shoulder wrist / (distance shoulder elbow + distance elbow wrist) →
         distance shoulder wrist / (distance shoulder elbow + distance elbow wrist) < 0.78 →
           (computeBowZone shoulder elbow wrist).zone = Zone.middle) ∧
        (0.78 ≤ distance shoulder wrist / (distance shoulder elbow + distance elbow wrist) →
           (computeBowZone shoulder elbow wrist).zone = Zone.tip))) := by
  unfold computeBowZone
  simp only []
  constructor
  · intro h
    rw [if_pos h]
  · intro h
    rw [if_neg (not_lt.mpr h)]
    refine ⟨fun h1 => ?_, fun h1 h2 => ?_, fun h1 => ?_⟩
    · rw [if_pos h1]
    · rw [if_neg (not_lt.mpr h1), if_pos h2]
    · rw [if_neg (not_lt.mpr (le_trans (by norm_num) h1)),
        if_neg (not_lt.mpr h1)]

/-- C8 witness: a fully extended collinear arm (ratio 1) is classified
as tip. -/
theorem c8_zone_thresholds_witness :
    (computeBowZone ⟨0, 0⟩ ⟨1, 0⟩ ⟨2, 0⟩).zone = Zone.tip := by
  have d1 : distance ⟨0, 0⟩ ⟨1, 0⟩ = 1 := by
    rw [distance]
    exact sqrt_eval (by norm_num) (by norm_num)
  have d2 : distance ⟨1, 0⟩ ⟨2, 0⟩ = 1 := by
    rw [distance]
    exact sqrt_eval (by norm_num) (by norm_num)
  have d3 : distance ⟨0, 0⟩ ⟨2, 0⟩ = 2 := by
    rw [distance]
    exact sqrt_eval (by norm_num) (by norm_num)
  exact (c8_zone_thresholds ⟨0, 0⟩ ⟨1, 0⟩ ⟨2, 0⟩).2
    (by rw [d1, d2]; norm_num) |>.2.2 (by rw [d1, d2, d3]; norm_num)

/-- C5: for every non-empty diagnostic log the overall score is the
weighted average of the channel scores — mean straightness with weight
3 (omitted when none), elbow status mapped to good 90 / warn 60 /
bad 30 with weight 2, shoulder status mapped to good 95 / warn 60 /
bad 30 with weight 2, distribution-spread status mapped to good 90 /
warn 65 / bad 35 with weight 1 — divided by the sum of the weights
actually used and rounded, and the overall status is good at 80 and
above, warn at 60 and above, else bad. -/
theorem c5_overall_weighted_average (log : List LogEntry) (h : log.length ≠ 0) :
    showDiagnoseReport log = DiagnoseOutcome.report (computeReport log) ∧
    (computeReport log).overall =
      round (((match avgStraightnessOf log with
               | some a => (a : ℚ) * 3
               | none => 0) +
              (if elbowStatusOf log = Status.good then (90 : ℚ)
               else if elbowStatusOf log = Status.warn then 60 else 30) * 2 +
              (if shoulderStatusOf log = Status.good then (95 : ℚ)
               else if shoulderStatusOf log = Status.warn then 60 else 30) * 2 +
              (if distStatusOf log = Status.good then (90 : ℚ)
               else if distStatusOf log = Status.warn then 65 else 35) * 1) /
             ((if (avgStraightnessOf log).isSome then (3 : ℚ) else 0) + 2 + 2 + 1)) ∧
    (computeReport log).overallStatus =
      (if 80 ≤ (computeReport log).overall then Status.good
       else if 60 ≤ (computeReport log).overall then Status.warn
       else Status.bad) := by
  refine ⟨by unfold showDiagnoseReport; rw [if_neg h], ?_, rfl⟩
  show overallOf log = _
  unfold overallOf
  cases hA : avgStraightnessOf log with
  | none =>
    simp only [hA, Option.isSome_none, List.nil_append, List.map_cons, List.map_nil,
      List.sum_cons, List.sum_nil, Bool.false_eq_true, if_false]
    congr 1
    ring
  | some a =>
    simp only [hA, Option.isSome_some, List.cons_append, List.nil_append, List.map_cons,
      List.map_nil, List.sum_cons, List.sum_nil, if_true]
    congr 1
    ring

/-- C5 witness: the weighted-average identity instantiated at a
concrete one-entry log. -/
theorem c5_overall_weighted_average_witness :
    showDiagnoseReport [⟨some 90, 0, 0, Zone.middle⟩] =
      DiagnoseOutcome.report (computeReport [⟨some 90, 0, 0, Zone.middle⟩]) ∧
    (computeReport [⟨some 90, 0, 0, Zone.middle⟩]).overall =
      round (((match avgStraightnessOf [⟨some 90, 0, 0, Zone.middle⟩] with
               | some a => (a : ℚ) * 3
               | none => 0) +
              (if elbowStatusOf [⟨some 90, 0, 0, Zone.middle⟩] = Status.good then (90 : ℚ)
               else if elbowStatusOf [⟨some 90, 0, 0, Zone.middle⟩] = Status.warn then 60
               else 30) * 2 +
              (if shoulderStatusOf [⟨some 90, 0, 0, Zone.middle⟩] = Status.good then (95 : ℚ)
               else if shoulderStatusOf [⟨some 90, 0, 0, Zone.middle⟩] = Status.warn then 60
               else 30) * 2 +
              (if distStatusOf [⟨some 90, 0, 0, Zone.middle⟩] = Status.good then (90 : ℚ)
               else if distStatusOf [⟨some 90, 0, 0, Zone.middle⟩] = Status.warn then 65
               else 35) * 1) /
             ((if (avgStraightnessOf [⟨some 90, 0, 0, Zone.middle⟩]).isSome then (3 : ℚ)
               else 0) + 2 + 2 + 1)) ∧
    (computeReport [⟨some 90, 0, 0, Zone.middle⟩]).overallStatus =
      (if 80 ≤ (computeReport [⟨some 90, 0, 0, Zone.middle⟩]).overall then Status.good
       else if 60 ≤ (computeReport [⟨some 90, 0, 0, Zone.middle⟩]).overall then Status.warn
       else Status.bad) :=
  c5_overall_weighted_average [⟨some 90, 0, 0, Zone.middle⟩] (by decide)

/-- C7 (amended): the advice selector returns exactly one string,
inspecting straightness, then elbow, then shoulder in that fixed
priority order and returning the first issue message, where an issue
is a non-good status except that an elbow labeled too-high (高すぎ)
is treated as an issue regardless of its status; when no issue exists
it returns a positive message, special-cased only when the
distribution is labeled full-bow (全弓). -/
theorem c7_advice_priority (ss es shs : Status) (el shl dl : String) :
    generateAdvice ⟨some ⟨ss⟩, some ⟨es, el⟩, some ⟨shs, shl⟩, some ⟨dl⟩⟩ =
      (if ss = Status.bad then
        "弓が曲がっています。弓先まで弦と直角を保つよう意識してみてください"
       else if ss = Status.warn then
        "弓がやや曲がっています。手首の柔軟性を意識してみましょう"
       else if es = Status.bad then
        "肘が下がりすぎです。弦の高さに合わせて肘を上げましょう"
       else if el = "高すぎ" then
        "肘が高すぎます。力まず自然な高さに下ろしましょう"
       else if es = Status.warn then
        "肘をもう少し上げてみましょう"
       else if shs = Status.bad then
        "肩に力が入っています！一度息を吐いて肩を落としましょう"
       else if shs = Status.warn then
        (if shl = "左右差あり" then
          "肩の高さに左右差があります。鏡で確認してみましょう"
         else "肩が少し上がっています。リラックスを意識してください")
       else if dl = "全弓" then "いい感じ！全弓をバランスよく使えています"
       else "フォームは良好です。この調子で続けましょう") := by
  cases ss <;> cases es <;> cases shs <;>
    simp only [generateAdvice] <;> split_ifs <;> simp_all

/-- C7 counterexample: a record whose three statuses are all good but
whose elbow carries the too-high label is answered with the elbow
issue message, not a positive message — refuting the claim that an
all-good record always gets a positive message. -/
theorem c7_advice_priority_counterexample :
    generateAdvice ⟨some ⟨Status.good⟩, some ⟨Status.good, "高すぎ"⟩,
        some ⟨Status.good, "リラックス"⟩, some ⟨"均等"⟩⟩ =
      "肘が高すぎます。力まず自然な高さに下ろしましょう" ∧
    generateAdvice ⟨some ⟨Status.good⟩, some ⟨Status.good, "高すぎ"⟩,
        some ⟨Status.good, "リラックス"⟩, some ⟨"均等"⟩⟩ ≠
      "フォームは良好です。この調子で続けましょう" ∧
    generateAdvice ⟨some ⟨Status.good⟩, some ⟨Status.good, "高すぎ"⟩,
        some ⟨Status.good, "リラックス"⟩, some ⟨"均等"⟩⟩ ≠
      "いい感じ！全弓をバランスよく使えています" := by
  refine ⟨rfl, by decide, by decide⟩

/-- C3: a wrist trail with fewer than 10 samples gets score null and
status good, and the same null-score good result is returned when the
segmentation finds no stroke of at least 8 samples. -/
theorem c3_insufficient_data_no_score (trail : List TrailSample) :
    (trail.length < 10 →
       computeBowStraightness trail = ⟨none, none, Status.good⟩) ∧
    (segmentStrokes trail = [] →
       computeBowStraightness trail = ⟨none, none, Status.good⟩) := by
  constructor
  · intro h
    unfold computeBowStraightness
    rw [if_pos h]
  · intro h
    unfold computeBowStraightness
    simp only []
    split_ifs with h1 h2
    · rfl
    · rfl
    · exact absurd (by rw [h]; rfl) h2

/-- C3 witness: a 3-sample trail and a 12-sample zigzag trail whose
longest direction-consistent stroke has only 2 samples both yield the
no-opinion result. -/
theorem c3_insufficient_data_no_score_witness :
    computeBowStraightness [⟨0, 0, 0⟩, ⟨1, 0, 0⟩, ⟨2, 0, 0⟩] =
      ⟨none, none, Status.good⟩ ∧
    computeBowStraightness [⟨0, 0, 0⟩, ⟨1, 0, 0⟩, ⟨0, 0, 0⟩, ⟨1, 0, 0⟩,
        ⟨0, 0, 0⟩, ⟨1, 0, 0⟩, ⟨0, 0, 0⟩, ⟨1, 0, 0⟩, ⟨0, 0, 0⟩, ⟨1, 0, 0⟩,
        ⟨0, 0, 0⟩, ⟨1, 0, 0⟩] = ⟨none, none, Status.good⟩ :=
  ⟨(c3_insufficient_data_no_score [⟨0, 0, 0⟩, ⟨1, 0, 0⟩, ⟨2, 0, 0⟩]).1
     (by norm_num),
   (c3_insufficient_data_no_score [⟨0, 0, 0⟩, ⟨1, 0, 0⟩, ⟨0, 0, 0⟩, ⟨1, 0, 0⟩,
        ⟨0, 0, 0⟩, ⟨1, 0, 0⟩, ⟨0, 0, 0⟩, ⟨1, 0, 0⟩, ⟨0, 0, 0⟩, ⟨1, 0, 0⟩,
        ⟨0, 0, 0⟩, ⟨1, 0, 0⟩]).2
     (by norm_num [segmentStrokes, segStep, msign])⟩

/-- C4: on an evaluated stroke whose first-to-last length is at least
0.03 the analyzer reports curvature = (RMSE / strokeLength) × 100,
score = the nearest integer to clamp(0, 100, 100 − curvature × 5), and
status bad above curvature 5, warn above 2, else good; a stroke
shorter than 0.03 yields score null with status good. -/
theorem c4_stroke_scoring (stroke : List TrailSample) :
    (distance stroke.headI.toPt (stroke.getLastD default).toPt < 0.03 →
       evalStroke stroke = ⟨none, none, Status.good⟩) ∧
    (0.03 ≤ distance stroke.headI.toPt (stroke.getLastD default).toPt →
       evalStroke stroke =
         ⟨some (round (max 0 (min 100 (100 -
              strokeRMSE stroke /
                distance stroke.headI.toPt (stroke.getLastD default).toPt * 100 * 5)))),
          some (strokeRMSE stroke /
              distance stroke.headI.toPt (stroke.getLastD default).toPt * 100),
          if 5 < strokeRMSE stroke /
                distance stroke.headI.toPt (stroke.getLastD default).toPt * 100 then
            Status.bad
          else if 2 < strokeRMSE stroke /
                distance stroke.headI.toPt (stroke.getLastD default).toPt * 100 then
            Status.warn
          else Status.good⟩) := by
  unfold evalStroke
  simp only []
  constructor
  · intro h
    rw [if_pos h]
  · intro h
    rw [if_neg (not_lt.mpr h)]

/-- C4 witness: an 8-sample stroke lying exactly on a horizontal line,
of length 7, scores 100 with curvature 0 and status good. -/
theorem c4_stroke_scoring_witness :
    evalStroke [⟨0, 0, 0⟩, ⟨1, 0, 0⟩, ⟨2, 0, 0⟩, ⟨3, 0, 0⟩, ⟨4, 0, 0⟩,
        ⟨5, 0, 0⟩, ⟨6, 0, 0⟩, ⟨7, 0, 0⟩] = ⟨some 100, some 0, Status.good⟩ := by
  have hd : distance
      (([⟨0, 0, 0⟩, ⟨1, 0, 0⟩, ⟨2, 0, 0⟩, ⟨3, 0, 0⟩, ⟨4, 0, 0⟩,
         ⟨5, 0, 0⟩, ⟨6, 0, 0⟩, ⟨7, 0, 0⟩] : List TrailSample).headI).toPt
      (([⟨0, 0, 0⟩, ⟨1, 0, 0⟩, ⟨2, 0, 0⟩, ⟨3, 0, 0⟩, ⟨4, 0, 0⟩,
         ⟨5, 0, 0⟩, ⟨6, 0, 0⟩, ⟨7, 0, 0⟩] : List TrailSample).getLastD default).toPt
      = 7 := by
    show distance (TrailSample.toPt ⟨0, 0, 0⟩) (TrailSample.toPt ⟨7, 0, 0⟩) = 7
    rw [distance]
    exact sqrt_eval (by norm_num) (by norm_num [TrailSample.toPt])
  have hr : strokeRMSE [⟨0, 0, 0⟩, ⟨1, 0, 0⟩, ⟨2, 0, 0⟩, ⟨3, 0, 0⟩, ⟨4, 0, 0⟩,
      ⟨5, 0, 0⟩, ⟨6, 0, 0⟩, ⟨7, 0, 0⟩] = 0 := by
    norm_num [strokeRMSE, Real.sqrt_zero]
  have h2 := (c4_stroke_scoring [⟨0, 0, 0⟩, ⟨1, 0, 0⟩, ⟨2, 0, 0⟩, ⟨3, 0, 0⟩,
      ⟨4, 0, 0⟩, ⟨5, 0, 0⟩, ⟨6, 0, 0⟩, ⟨7, 0, 0⟩]).2 (by rw [hd]; norm_num)
  rw [hd, hr] at h2
  rw [h2]
  norm_num [round_eq, Int.floor_eq_iff]

end BowMetrics
